import Mathlib

/-!
Verification development for the vanilla SSR/SSG storefront package.

The definitions below are a shallow embedding of the JavaScript sources:
`findRoute`, `render`, `initStores`, `prefetchProducts` and
`prefetchProductDetail` embed the SSR entry module (`main-server.js`);
the `Deploy` names embed `packages/vanilla/deploy.js`
(`createHtmlTemplate`, `ssrMiddleware`); the `SSG` names embed
`packages/vanilla/static-site-generate.js` (`createHtmlTemplate`,
`generateStaticSite`).

JavaScript strings are Lean `String`s, JS `undefined`/`null` is `Option`,
a function that may throw is `Except String`.  HTTP calls and the page
components live behind oracle structures (`Api`, `Pages`): the source
performs them through imported collaborators.  The store layer
(`stores/index.js`) is not among the given sources and is modelled from
the spec where so marked.
-/

/-- Boolean test that `pat` occurs at the head of `l`
(the prefix test used by JS `String.prototype.replace` with a string
pattern when scanning for the first occurrence). -/
def leadsWith : List Char → List Char → Bool
  | [], _ => true
  | _ :: _, [] => false
  | p :: ps, c :: cs => p = c && leadsWith ps cs

/-- JS `s.replace(pat, rep)` with a *string* pattern: replace only the
first occurrence of `pat`; with an empty pattern JS inserts `rep` at the
start.  Character-list level. -/
def replaceFirstL (pat rep : List Char) : List Char → List Char
  | [] => if pat.isEmpty then rep else []
  | c :: cs =>
    if leadsWith pat (c :: cs) then rep ++ (c :: cs).drop pat.length
    else c :: replaceFirstL pat rep cs

/-- JS `s.replace(pat, rep)` (first occurrence only), on `String`. -/
def replaceFirst (s pat rep : String) : String :=
  String.mk (replaceFirstL pat.toList rep.toList s.toList)

/-- JS `url.split("?")[0]`: the characters before the first `?`. -/
def stripQueryL (l : List Char) : List Char :=
  l.takeWhile (fun c => c != '?')

/-- JS `s.replace(/\/$/, "")`: drop one trailing slash if present. -/
def stripSlashL (l : List Char) : List Char :=
  if l.getLast? = some '/' then l.dropLast else l

/-- The two page components registered on the server plus the fallback. -/
inductive PageKind where
  | home
  | productDetail
  | notFound
deriving DecidableEq, Repr

/-- Result of `findRoute`: a handler and a params object
(`params` is the JS object of captured dynamic segments, as an
association list). -/
structure RouteMatch where
  handler : PageKind
  params : List (String × String)
deriving DecidableEq, Repr

/-- The compiled regex of the route pattern `/product/:id`, namely
`^\/product\/([^/]+)$`: a literal `/product/` followed by a nonempty
capture containing no `/`. -/
def matchProductL : List Char → Option (List Char)
  | '/' :: 'p' :: 'r' :: 'o' :: 'd' :: 'u' :: 'c' :: 't' :: '/' :: rest =>
    if rest = [] then none
    else if '/' ∈ rest then none
    else some rest
  | _ => none

/-- The route table scan of `findRoute`: pattern `/` (regex `^\/$`) first,
then `/product/:id`, otherwise the NotFoundPage fallback. -/
def routeOfClean (l : List Char) : RouteMatch :=
  if l = ['/'] then ⟨PageKind.home, []⟩
  else
    match matchProductL l with
    | some rest => ⟨PageKind.productDetail, [("id", String.mk rest)]⟩
    | none => ⟨PageKind.notFound, []⟩

/-- The part of `findRoute`'s `cleanPath` computation after the query
split and before the `|| "/"` default:
`pathname.replace(baseUrl, "").replace(/\/$/, "")`. -/
def strippedPath (pathname b : List Char) : List Char :=
  stripSlashL (replaceFirstL b [] pathname)

/-- `const cleanPath = pathname.replace(baseUrl, "").replace(/\/$/, "") || "/"`. -/
def cleanOfPathname (pathname b : List Char) : List Char :=
  if strippedPath pathname b = [] then ['/'] else strippedPath pathname b

/-- Server-side route matching (`findRoute(url, baseUrl = "")` in
`main-server.js`): strip the query, strip the first occurrence of
`baseUrl`, strip one trailing slash, default to `/`, then scan the route
table. -/
def findRoute (url : String) (baseUrl : String) : RouteMatch :=
  routeOfClean (cleanOfPathname (stripQueryL url.toList) baseUrl.toList)

/-- A product record as consumed by the SSR module; only the fields the
server code inspects (`productId`, `category2`) are carried. -/
structure Product where
  productId : String
  category2 : Option String
deriving DecidableEq, Repr

/-- The pagination part of a `getProducts` response. -/
structure Pagination where
  total : Nat
deriving DecidableEq, Repr

/-- Shape of a `getProducts` response. -/
structure ProductsResponse where
  products : List Product
  pagination : Pagination
deriving DecidableEq, Repr

/-- Query objects (JS plain objects of string values). -/
def Query := List (String × String)
deriving DecidableEq, Repr

/-- Oracle for the HTTP product API (`api/productApi.js` is an external
collaborator); each call either resolves or rejects with a message. -/
structure Api where
  getProducts : Query → Except String ProductsResponse
  getCategories : Except String (List String)
  getProduct : String → Except String Product

/-- Modelled from the spec: the product store state
(`stores/index.js` is not among the given sources).  Field inventory is
taken from the payloads the SSR module dispatches: `products`,
`categories`, `totalCount`, `currentProduct`, `relatedProducts`,
`loading`, `status`, `error`. -/
structure ProductState where
  products : List Product
  categories : List String
  totalCount : Nat
  currentProduct : Option Product
  relatedProducts : List Product
  loading : Bool
  status : String
  error : Option String
deriving DecidableEq, Repr

/-- Modelled from the spec: `initialProductState` exported by
`stores/index.js` (not among the given sources); a quiescent empty
state. -/
def initialProductState : ProductState :=
  { products := []
    categories := []
    totalCount := 0
    currentProduct := none
    relatedProducts := []
    loading := false
    status := "idle"
    error := none }

/-- A `PRODUCT_ACTIONS.SETUP` payload: a JS object spread over the state
(`...state, ...payload`), so each field is optionally present. -/
structure SetupPayload where
  products : Option (List Product) := none
  categories : Option (List String) := none
  totalCount : Option Nat := none
  currentProduct : Option (Option Product) := none
  relatedProducts : Option (List Product) := none
  loading : Option Bool := none
  status : Option String := none
  error : Option (Option String) := none
deriving DecidableEq, Repr

/-- A payload carrying every field of `st` (the spread of a complete
state object, as in the store reset of the SSR module). -/
def fullPayload (st : ProductState) : SetupPayload :=
  { products := some st.products
    categories := some st.categories
    totalCount := some st.totalCount
    currentProduct := some st.currentProduct
    relatedProducts := some st.relatedProducts
    loading := some st.loading
    status := some st.status
    error := some st.error }

/-- Actions the SSR module dispatches to the product store. -/
inductive ProductAction where
  | setup (payload : SetupPayload)
  | setError (msg : String)
  | setCurrentProduct (p : Product)
  | setRelatedProducts (ps : List Product)
deriving DecidableEq, Repr

/-- Modelled from the spec: the product store reducer of
`stores/index.js` (not among the given sources) — a minimal reducer:
`SETUP` merges the payload over the state, the other actions set the
field their name denotes. -/
def productReducer (s : ProductState) : ProductAction → ProductState
  | ProductAction.setup p =>
    { products := p.products.getD s.products
      categories := p.categories.getD s.categories
      totalCount := p.totalCount.getD s.totalCount
      currentProduct := p.currentProduct.getD s.currentProduct
      relatedProducts := p.relatedProducts.getD s.relatedProducts
      loading := p.loading.getD s.loading
      status := p.status.getD s.status
      error := p.error.getD s.error }
  | ProductAction.setError m => { s with error := some m }
  | ProductAction.setCurrentProduct p => { s with currentProduct := some p }
  | ProductAction.setRelatedProducts ps => { s with relatedProducts := ps }

/-- Modelled from the spec: the cart store state (`stores/index.js` is
not among the given sources); only emptiness is observed server-side. -/
structure CartState where
  items : List String
deriving DecidableEq, Repr

/-- Modelled from the spec: the UI store state (`stores/index.js` is not
among the given sources); the SSR module closes the cart modal and hides
the toast. -/
structure UIState where
  cartModalOpen : Bool
  toastVisible : Bool
deriving DecidableEq, Repr

/-- One pipeline step of `render`, for stating the order of effects. -/
inductive SSREvent where
  | matchRoute
  | setServerRoute
  | resetStores
  | prefetch
  | renderPage
deriving DecidableEq, Repr, BEq

/-- The request-scoped server state threaded through `render`: the three
stores, the router's server route, an event log, and the list of actions
dispatched to the product store. -/
structure ServerState where
  productSt : ProductState
  cartSt : CartState
  uiSt : UIState
  serverRoute : Option (String × Query × List (String × String))
  log : List SSREvent
  dispatched : List ProductAction
deriving DecidableEq, Repr

/-- The module-initial server state. -/
def initialServerState : ServerState :=
  { productSt := initialProductState
    cartSt := { items := [] }
    uiSt := { cartModalOpen := false, toastVisible := false }
    serverRoute := none
    log := []
    dispatched := [] }

/-- `productStore.dispatch(action)`: reduce and record the action. -/
def dispatchProduct (a : ProductAction) (s : ServerState) : ServerState :=
  { s with
    productSt := productReducer s.productSt a
    dispatched := s.dispatched ++ [a] }

/-- The store reset of the SSR module (`initializeStores` in
`main-server.js`): `SETUP` with the spread of `initialProductState`
overridden by `loading: true, status: "pending"`, then `CLEAR_CART`,
`CLOSE_CART_MODAL` and `HIDE_TOAST` (those three reducers modelled from
the spec since `stores/index.js` is not among the given sources). -/
def initStores (s : ServerState) : ServerState :=
  let s1 := dispatchProduct
    (ProductAction.setup
      (fullPayload { initialProductState with loading := true, status := "pending" })) s
  let s2 := { s1 with cartSt := { s1.cartSt with items := [] } }
  let s3 := { s2 with uiSt := { s2.uiSt with cartModalOpen := false } }
  { s3 with uiSt := { s3.uiSt with toastVisible := false } }

/-- JS truthiness of an optional string (`undefined` and `""` are
falsy). -/
def jsTruthy : Option String → Bool
  | some s => s != ""
  | none => false

/-- `prefetchProducts(query)` of `main-server.js`: fetch the product
list and the categories together (`Promise.all` rejects when either
does), dispatch `SETUP` with the list data on success, `SET_ERROR` on
failure — the error never escapes. -/
def prefetchProducts (api : Api) (query : Query) (s : ServerState) : ServerState :=
  match api.getProducts query, api.getCategories with
  | Except.ok resp, Except.ok cats =>
    dispatchProduct
      (ProductAction.setup
        { products := some resp.products
          categories := some cats
          totalCount := some resp.pagination.total
          loading := some false
          status := some "done"
          error := some none }) s
  | Except.error e, _ => dispatchProduct (ProductAction.setError e) s
  | Except.ok _, Except.error e => dispatchProduct (ProductAction.setError e) s

/-- `prefetchProductDetail(productId)` of `main-server.js`: fetch the
product, dispatch `SET_CURRENT_PRODUCT`; when the product has a truthy
`category2`, fetch related products and dispatch
`SET_RELATED_PRODUCTS` with the current product filtered out (empty
list when that inner fetch fails); `SET_ERROR` when the product fetch
fails — no error escapes. -/
def prefetchProductDetail (api : Api) (productId : String) (s : ServerState) : ServerState :=
  match api.getProduct productId with
  | Except.error e => dispatchProduct (ProductAction.setError e) s
  | Except.ok product =>
    let s1 := dispatchProduct (ProductAction.setCurrentProduct product) s
    if jsTruthy product.category2 then
      match api.getProducts
          [("category2", product.category2.getD ""), ("limit", "20"), ("page", "1")] with
      | Except.ok resp =>
        dispatchProduct
          (ProductAction.setRelatedProducts
            (resp.products.filter (fun p => p.productId != productId))) s1
      | Except.error _ =>
        dispatchProduct (ProductAction.setRelatedProducts []) s1
    else s1

/-- Page components as oracles: each either returns its HTML string or
throws.  (`pages` is presentation code, an external collaborator.) -/
structure Pages where
  homePage : Except String String
  productDetailPage : Except String String
  notFoundPage : Except String String

/-- `route.handler()` dispatch. -/
def pageOf (pg : Pages) : PageKind → Except String String
  | PageKind.home => pg.homePage
  | PageKind.productDetail => pg.productDetailPage
  | PageKind.notFound => pg.notFoundPage

/-- `const cleanUrl = url.replace(BASE_URL, "").replace(/\/$/, "") || "/"`
at the top of `render`. -/
def cleanUrlOf (base url : String) : String :=
  let a := replaceFirstL base.toList [] url.toList
  let b := stripSlashL a
  if b = [] then "/" else String.mk b

/-- `route.params.id` read off the params object. -/
def paramId (ps : List (String × String)) : Option String :=
  ps.lookup "id"

/-- The first half of `render`, up to and including the store reset:
compute `cleanUrl`, match the route, set the router's server route,
reset the stores.  (Split out so the state at this point can be named;
`render` below continues from it.) -/
def renderInit (base url : String) (query : Query) (s0 : ServerState) : ServerState :=
  let cleanUrl := cleanUrlOf base url
  let route := findRoute cleanUrl base
  let s1 := { s0 with log := s0.log ++ [SSREvent.matchRoute] }
  let s2 := { s1 with
    serverRoute := some (cleanUrl, query, route.params)
    log := s1.log ++ [SSREvent.setServerRoute] }
  initStores { s2 with log := s2.log ++ [SSREvent.resetStores] }

/-- The SSR `render(url, query)` of `main-server.js`: strip `BASE_URL`,
match the route, set the server route, reset the stores, prefetch
(detail when `route.params.id` is truthy, list otherwise), then run the
page component; `html || ""` on success, and the surrounding
`try`/`catch` turns a page-component throw into `NotFoundPage()`. -/
def render (api : Api) (pages : Pages) (base url : String) (query : Query)
    (s0 : ServerState) : Except String String × ServerState :=
  let route := findRoute (cleanUrlOf base url) base
  let s3 := renderInit base url query s0
  let s4 :=
    if jsTruthy (paramId route.params) then
      prefetchProductDetail api ((paramId route.params).getD "")
        { s3 with log := s3.log ++ [SSREvent.prefetch] }
    else
      prefetchProducts api query { s3 with log := s3.log ++ [SSREvent.prefetch] }
  let s5 := { s4 with log := s4.log ++ [SSREvent.renderPage] }
  match pageOf pages route.handler with
  | Except.ok h => (Except.ok (if h = "" then "" else h), s5)
  | Except.error _ => (pages.notFoundPage, s5)

deriving instance DecidableEq for Except

/-- A sample product with id `p1`. -/
def prodA : Product := ⟨"p1", some "cat"⟩

/-- A sample product with id `p2`, sharing `category2` with `prodA`. -/
def prodB : Product := ⟨"p2", some "cat"⟩

/-- An API oracle where every call resolves. -/
def api0 : Api :=
  { getProducts := fun _ => Except.ok ⟨[prodA, prodB], ⟨2⟩⟩
    getCategories := Except.ok ["c1"]
    getProduct := fun pid => Except.ok ⟨pid, some "cat"⟩ }

/-- An API oracle where every call rejects. -/
def apiFail : Api :=
  { getProducts := fun _ => Except.error "boom"
    getCategories := Except.error "boom"
    getProduct := fun _ => Except.error "boom" }

/-- Page oracles that all render successfully. -/
def pages0 : Pages :=
  { homePage := Except.ok "HOMEHTML"
    productDetailPage := Except.ok "DETAILHTML"
    notFoundPage := Except.ok "NFHTML" }

/-- The store-reset action dispatched by `initStores`. -/
def setupInitAction : ProductAction :=
  ProductAction.setup
    (fullPayload { initialProductState with loading := true, status := "pending" })

/-- The product-store actions `prefetchProducts` dispatches, as a
function of the API outcome. -/
def productsActions (api : Api) (q : Query) : List ProductAction :=
  match api.getProducts q, api.getCategories with
  | Except.ok resp, Except.ok cats =>
    [ProductAction.setup
      { products := some resp.products
        categories := some cats
        totalCount := some resp.pagination.total
        loading := some false
        status := some "done"
        error := some none }]
  | Except.error e, _ => [ProductAction.setError e]
  | Except.ok _, Except.error e => [ProductAction.setError e]

/-- The product-store actions `prefetchProductDetail` dispatches, as a
function of the API outcome. -/
def detailActions (api : Api) (pid : String) : List ProductAction :=
  match api.getProduct pid with
  | Except.error e => [ProductAction.setError e]
  | Except.ok product =>
    if jsTruthy product.category2 then
      match api.getProducts
          [("category2", product.category2.getD ""), ("limit", "20"), ("page", "1")] with
      | Except.ok resp =>
        [ProductAction.setCurrentProduct product,
          ProductAction.setRelatedProducts
            (resp.products.filter (fun p => p.productId != pid))]
      | Except.error _ =>
        [ProductAction.setCurrentProduct product, ProductAction.setRelatedProducts []]
    else [ProductAction.setCurrentProduct product]

/-- Built asset file names, as found by `findAssetFiles()`. -/
structure Deploy.Assets where
  js : String
  css : String
deriving DecidableEq, Repr

/-- Head chunk of the server HTML template, after the `.trim()` of the
template literal, up to the css `href` attribute. -/
def Deploy.tplA : String :=
  "<!DOCTYPE html>\n<html lang=\"ko\">\n  <head>\n    <meta charset=\"UTF-8\" />\n    <meta name=\"viewport\" content=\"width=device-width, initial-scale=1.0\" />\n    <script src=\"https://cdn.tailwindcss.com\"></script>\n    <link rel=\"stylesheet\" "

/-- Template chunk between the css path and the root div. -/
def Deploy.tplB : String :=
  ">\n    <script>\n      tailwind.config = \x7b\n        theme: \x7b\n          extend: \x7b\n            colors: \x7b\n              primary: \x27#3b82f6\x27,\n              secondary: \x27#6b7280\x27\n            \x7d\n          \x7d\n        \x7d\n      \x7d\n    </script>\n  </head>\n  <body class=\"bg-gray-50\">\n    "

/-- Template chunk between the root div and the module script. -/
def Deploy.tplC : String :=
  "\n    <script type=\"module\" "

/-- Tail chunk of the server HTML template. -/
def Deploy.tplD : String :=
  "></script>\n  </body>\n</html>"

/-- `createHtmlTemplate(html, baseUrl, isProd, assets)` of `deploy.js`:
the trimmed template literal with `cssPath = baseUrl + assets.css`,
`jsPath = baseUrl + assets.js`, and `html` inside
`<div id="root">...</div>`.  (`isProd` is accepted but unused, as in the
source.) -/
def Deploy.createHtmlTemplate (html baseUrl : String) (isProd : Bool)
    (assets : Deploy.Assets) : String :=
  Deploy.tplA ++ "href=\"" ++ (baseUrl ++ assets.css) ++ "\"" ++ Deploy.tplB ++
    "<div id=\"root\">" ++ html ++ "</div>" ++ Deploy.tplC ++
    "src=\"" ++ (baseUrl ++ assets.js) ++ "\"" ++ Deploy.tplD

/-- An incoming HTTP request, as the middleware sees it. -/
structure Deploy.Request where
  originalUrl : String
  query : Query

/-- The response the middleware sends. -/
structure Deploy.Response where
  contentType : String
  body : String
deriving DecidableEq, Repr

/-- `const url = req.originalUrl.replace(base, "/") || "/"`. -/
def Deploy.urlOf (base : String) (req : Deploy.Request) : String :=
  let u := String.mk (replaceFirstL base.toList ['/'] req.originalUrl.toList)
  if u = "" then "/" else u

/-- The SSR middleware of `deploy.js`: rewrite the url, run `render`,
and send the filled template with Content-Type `text/html`; if the
render promise rejects the middleware forwards to `next(error)` and
sends nothing itself.  `appBase` is the `BASE_URL` constant baked into
the imported server bundle. -/
def Deploy.ssrMiddleware (api : Api) (pages : Pages) (appBase base : String)
    (prod : Bool) (assets : Deploy.Assets) (req : Deploy.Request)
    (s0 : ServerState) : Option Deploy.Response × ServerState :=
  match render api pages appBase (Deploy.urlOf base req) req.query s0 with
  | (Except.ok html, s1) =>
    (some { contentType := "text/html"
            body := Deploy.createHtmlTemplate html base prod assets }, s1)
  | (Except.error _, s1) => (none, s1)

/-- Concrete request fixture. -/
def Deploy.req0 : Deploy.Request := ⟨"/", []⟩

/-- Concrete asset fixture (the dev-mode names of `findAssetFiles`). -/
def Deploy.assets0 : Deploy.Assets := ⟨"index.js", "index.css"⟩

/-- Substring occurrence test on character lists. -/
def containsSubL (pat : List Char) : List Char → Bool
  | [] => pat.isEmpty
  | c :: cs => leadsWith pat (c :: cs) || containsSubL pat cs

/-- Substring occurrence test on strings. -/
def strContains (s pat : String) : Bool :=
  containsSubL pat.toList s.toList

/-- `createHtmlTemplate(html, initialData = null)` of
`static-site-generate.js`: replace the first `<!--app-html-->` with
`html`, remove the first `<!--app-head-->`, and — only when
`initialData` is non-null — inject the hydration script before
`</body>`.  The template string is the parameter (the built
`dist/vanilla/index.html` it is read from is not part of the sources);
`initialData` is carried already JSON-serialized. -/
def SSG.createHtmlTemplate (template html : String)
    (initialData : Option String) : String :=
  let t1 := replaceFirst template "<!--app-html-->" html
  let t2 := replaceFirst t1 "<!--app-head-->" ""
  match initialData with
  | some d =>
    replaceFirst t2 "</body>"
      ("<script>window.__INITIAL_DATA__ = " ++ d ++ ";</script>" ++ "\n  </body>")
  | none => t2

/-- The hydration script tag, named after the spec's words. -/
def SSG.initialDataScript (d : String) : String :=
  "<script>window.__INITIAL_DATA__ = " ++ d ++ ";</script>"

/-- Refinement side, following the spec's words for the null case:
substitute the app-html placeholder and remove the app-head placeholder,
nothing else. -/
def SSG.applyPlaceholders (template html : String) : String :=
  replaceFirst (replaceFirst template "<!--app-html-->" html) "<!--app-head-->" ""

/-- JS `const \x7b html \x7d = r` where `r` is a string: a string has no
`html` property, so the binding is `undefined` (`none`). -/
def SSG.destructHtml (_r : String) : Option String := none

/-- JS `const \x7b initialData \x7d = r` where `r` is a string:
`undefined` (`none`), for the same reason. -/
def SSG.destructInitialData (_r : String) : Option String := none

/-- JS string coercion applied by `String.prototype.replace` to a
non-string replacement: `undefined` becomes the text `"undefined"`. -/
def SSG.jsStr : Option String → String
  | some s => s
  | none => "undefined"

/-- What `generateStaticSite` produced: the urls passed to `render`, in
order, and the files written under the dist directory (path, content). -/
structure SSG.Output where
  renderCalls : List String
  files : List (String × String)
deriving DecidableEq, Repr

/-- One page step of `generateStaticSite`: `const { html, initialData }
= await render(url, {})` — destructuring the *string* the SSR `render`
resolves with — then write `createHtmlTemplate(html, initialData)` to
`path`; when the render promise rejects the error is logged and the
page skipped. -/
def SSG.step (api : Api) (pages : Pages) (template : String)
    (path url : String) (acc : List (String × String) × ServerState) :
    List (String × String) × ServerState :=
  match render api pages "" url [] acc.2 with
  | (Except.ok r, s') =>
    (acc.1 ++ [(path,
      SSG.createHtmlTemplate template (SSG.jsStr (SSG.destructHtml r))
        (SSG.destructInitialData r))], s')
  | (Except.error _, s') => (acc.1, s')

/-- `generateStaticSite()` of `static-site-generate.js` with
`BASE_URL = ""`: render and write the home page to `index.html`, one
page per product id from `items.json` (the ids are the parameter, the
file is not part of the sources) to `product/<id>/index.html`, and the
404 page to `404.html`. -/
def SSG.generateStaticSite (api : Api) (pages : Pages) (template : String)
    (productIds : List String) : SSG.Output × ServerState :=
  let baseUrl := ""
  let acc1 := SSG.step api pages template "index.html" (baseUrl ++ "/")
    ([], initialServerState)
  let acc2 := productIds.foldl
    (fun acc pid =>
      SSG.step api pages template ("product/" ++ pid ++ "/index.html")
        (baseUrl ++ "/product/" ++ pid) acc) acc1
  let acc3 := SSG.step api pages template "404.html"
    (baseUrl ++ "/not-found-page") acc2
  (⟨(baseUrl ++ "/") ::
      productIds.map (fun pid => baseUrl ++ "/product/" ++ pid) ++
      [baseUrl ++ "/not-found-page"],
    acc3.1⟩, acc3.2)

/-- Modelled from the spec: a built `dist/vanilla/index.html` page
template with the two placeholders and a body (the real built template
is not part of the sources). -/
def SSG.tpl0 : String :=
  "<html>\n  <head><!--app-head--></head>\n  <body>\n    <div id=\"root\"><!--app-html--></div>\n  </body>\n</html>"

/-! ## Theorems -/

theorem dispatchProduct_log (a : ProductAction) (s : ServerState) :
    (dispatchProduct a s).log = s.log := rfl

theorem initStores_log (s : ServerState) : (initStores s).log = s.log := rfl

theorem prefetchProducts_log (api : Api) (q : Query) (s : ServerState) :
    (prefetchProducts api q s).log = s.log := by
  cases h1 : api.getProducts q <;> cases h2 : api.getCategories <;>
    simp [prefetchProducts, h1, h2, dispatchProduct]

theorem prefetchProductDetail_log (api : Api) (pid : String) (s : ServerState) :
    (prefetchProductDetail api pid s).log = s.log := by
  unfold prefetchProductDetail
  cases h1 : api.getProduct pid with
  | error e => simp [dispatchProduct]
  | ok p =>
    by_cases ht : jsTruthy p.category2
    · cases h2 : api.getProducts
          [("category2", p.category2.getD ""), ("limit", "20"), ("page", "1")] with
      | ok resp => simp [ht, h2, dispatchProduct]
      | error e => simp [ht, h2, dispatchProduct]
    · simp [ht, dispatchProduct]

/-- C1 (counterexample): on a concrete request the pipeline's event log
is `[matchRoute, setServerRoute, resetStores, prefetch, renderPage]`, so
the store reset does *not* precede route matching as the claim states:
`matchRoute` is logged strictly before `resetStores`. -/
theorem render_resetStores_not_before_matchRoute :
    (render api0 pages0 "" "/" [] initialServerState).2.log =
      [SSREvent.matchRoute, SSREvent.setServerRoute, SSREvent.resetStores,
        SSREvent.prefetch, SSREvent.renderPage] ∧
    ¬ List.indexOf SSREvent.resetStores
        (render api0 pages0 "" "/" [] initialServerState).2.log <
      List.indexOf SSREvent.matchRoute
        (render api0 pages0 "" "/" [] initialServerState).2.log := by
  constructor
  · decide
  · decide

/-- C1 (amended): for every call to `render(url, query)` the SSR
pipeline appends exactly the events *match route*, *set server route*,
*reset stores*, *prefetch*, *render page* to the log, in that order:
route matching comes first and the store reset follows it, before any
prefetch and before the page component runs. -/
theorem render_effect_order (api : Api) (pages : Pages) (base url : String)
    (q : Query) (s0 : ServerState) :
    (render api pages base url q s0).2.log =
      s0.log ++ [SSREvent.matchRoute, SSREvent.setServerRoute, SSREvent.resetStores,
        SSREvent.prefetch, SSREvent.renderPage] := by
  unfold render renderInit
  by_cases ht : jsTruthy (paramId (findRoute (cleanUrlOf base url) base).params) = true <;>
    cases hp : pageOf pages (findRoute (cleanUrlOf base url) base).handler <;>
      simp [ht, hp, prefetchProductDetail_log, prefetchProducts_log, initStores_log]

/-- C5 (confirmed): in every `render` call, at the point reached right
after the store reset and before any prefetch dispatch (`renderInit` is
exactly that part of the pipeline, and `render` continues from its
result), the cart store is empty, the UI store has the cart modal
closed and the toast hidden, and the product store equals
`initialProductState` except that `loading` is `true` and `status` is
`"pending"`. -/
theorem render_state_after_init (base url : String) (q : Query) (s0 : ServerState) :
    (renderInit base url q s0).cartSt.items = [] ∧
    (renderInit base url q s0).uiSt.cartModalOpen = false ∧
    (renderInit base url q s0).uiSt.toastVisible = false ∧
    (renderInit base url q s0).productSt =
      { initialProductState with loading := true, status := "pending" } := by
  refine ⟨rfl, rfl, rfl, rfl⟩

/-- C3 (counterexample): with an API oracle whose every call rejects,
`render` on the product-detail route still resolves with the *matched
page's* HTML, not the NotFoundPage HTML: the prefetch error is caught
inside `prefetchProductDetail` (which dispatches `SET_ERROR`), so the
claimed "returns the default NotFoundPage HTML" is false for errors
thrown during data prefetching. -/
theorem render_prefetch_error_returns_matched_page :
    apiFail.getProduct "p1" = Except.error "boom" ∧
    (render apiFail pages0 "" "/product/p1" [] initialServerState).1 =
      Except.ok "DETAILHTML" ∧
    (render apiFail pages0 "" "/product/p1" [] initialServerState).1 ≠
      pages0.notFoundPage ∧
    (render apiFail pages0 "" "/product/p1" [] initialServerState).2.dispatched =
      [ProductAction.setup
        (fullPayload { initialProductState with loading := true, status := "pending" }),
        ProductAction.setError "boom"] := by
  refine ⟨rfl, by decide, by decide, by decide⟩

/-- C3 (amended): `render` never rejects as long as the NotFoundPage
component itself does not throw; its outcome does not depend on the API
oracle at all (every prefetch error is caught inside the prefetch
helpers), and an error thrown while running the matched page component
is caught, `render` then returning the NotFoundPage HTML. -/
theorem render_no_reject (api : Api) (pages : Pages) (base url : String)
    (q : Query) (s0 : ServerState) (nf : String)
    (hnf : pages.notFoundPage = Except.ok nf) :
    (∃ out, (render api pages base url q s0).1 = Except.ok out) ∧
    (∀ api2 : Api, (render api2 pages base url q s0).1 =
      (render api pages base url q s0).1) ∧
    (∀ e, pageOf pages (findRoute (cleanUrlOf base url) base).handler = Except.error e →
      (render api pages base url q s0).1 = Except.ok nf) := by
  refine ⟨?_, ?_, ?_⟩
  · cases hp : pageOf pages (findRoute (cleanUrlOf base url) base).handler with
    | ok h => exact ⟨if h = "" then "" else h, by simp [render, hp]⟩
    | error e => exact ⟨nf, by simp [render, hp, hnf]⟩
  · intro api2
    cases hp : pageOf pages (findRoute (cleanUrlOf base url) base).handler <;>
      simp [render, hp]
  · intro e hp
    simp [render, hp, hnf]

/-- C3 (witness for `render_no_reject`): the hypothesis holds at the
concrete fixtures and the conclusions follow by the theorem. -/
theorem render_no_reject_witness :
    pages0.notFoundPage = Except.ok "NFHTML" ∧
    (∃ out, (render api0 pages0 "" "/" [] initialServerState).1 = Except.ok out) :=
  ⟨rfl, (render_no_reject api0 pages0 "" "/" [] initialServerState "NFHTML" rfl).1⟩

theorem prefetchProducts_dispatched (api : Api) (q : Query) (s : ServerState) :
    (prefetchProducts api q s).dispatched = s.dispatched ++ productsActions api q := by
  unfold prefetchProducts productsActions
  cases h1 : api.getProducts q <;> cases h2 : api.getCategories <;>
    simp [dispatchProduct]

theorem prefetchProductDetail_dispatched (api : Api) (pid : String) (s : ServerState) :
    (prefetchProductDetail api pid s).dispatched = s.dispatched ++ detailActions api pid := by
  unfold prefetchProductDetail detailActions
  cases h1 : api.getProduct pid with
  | error e => simp [dispatchProduct]
  | ok p =>
    by_cases ht : jsTruthy p.category2
    · cases h2 : api.getProducts
          [("category2", p.category2.getD ""), ("limit", "20"), ("page", "1")] with
      | ok resp => simp [ht, h2, dispatchProduct]
      | error e => simp [ht, h2, dispatchProduct]
    · simp [ht, dispatchProduct]

theorem initStores_dispatched (s : ServerState) :
    (initStores s).dispatched = s.dispatched ++ [setupInitAction] := rfl

theorem render_dispatched (api : Api) (pages : Pages) (base url : String)
    (q : Query) (s0 : ServerState) :
    (render api pages base url q s0).2.dispatched =
      s0.dispatched ++ [setupInitAction] ++
        (if jsTruthy (paramId (findRoute (cleanUrlOf base url) base).params) then
          detailActions api ((paramId (findRoute (cleanUrlOf base url) base).params).getD "")
        else productsActions api q) := by
  unfold render renderInit
  by_cases ht : jsTruthy (paramId (findRoute (cleanUrlOf base url) base).params) = true <;>
    cases hp : pageOf pages (findRoute (cleanUrlOf base url) base).handler <;>
      simp [ht, hp, prefetchProductDetail_dispatched, prefetchProducts_dispatched,
        initStores_dispatched]

theorem setRelated_mem_detailActions {api : Api} {pid : String} {ps : List Product}
    (h : ProductAction.setRelatedProducts ps ∈ detailActions api pid) :
    ∀ p ∈ ps, p.productId ≠ pid := by
  unfold detailActions at h
  cases h1 : api.getProduct pid with
  | error e => rw [h1] at h; simp at h
  | ok product =>
    rw [h1] at h
    by_cases ht : jsTruthy product.category2
    · cases h2 : api.getProducts
          [("category2", product.category2.getD ""), ("limit", "20"), ("page", "1")] with
      | ok resp =>
        simp [ht, h2] at h
        subst h
        intro p hp
        have := List.of_mem_filter hp
        simpa using this
      | error e =>
        simp [ht, h2] at h
        subst h
        intro p hp
        simp at hp
    · simp [ht] at h

theorem setRelated_not_mem_productsActions {api : Api} {q : Query} {ps : List Product} :
    ProductAction.setRelatedProducts ps ∉ productsActions api q := by
  unfold productsActions
  cases h1 : api.getProducts q <;> cases h2 : api.getCategories <;> simp

/-- C7 (confirmed): whenever a `render` call dispatches a
`SET_RELATED_PRODUCTS` list to the product store (it does so only on the
product-detail branch, after the fetched product showed a `category2`),
no element of that list carries the route's `id` parameter: the current
product is filtered out. -/
theorem render_related_products_exclude_current (api : Api) (pages : Pages)
    (base url : String) (q : Query) (s0 : ServerState) (ps : List Product)
    (hmem : ProductAction.setRelatedProducts ps ∈ (render api pages base url q s0).2.dispatched)
    (hnew : ProductAction.setRelatedProducts ps ∉ s0.dispatched) :
    ∀ p ∈ ps, p.productId ≠
      (paramId (findRoute (cleanUrlOf base url) base).params).getD "" := by
  rw [render_dispatched] at hmem
  simp only [List.append_assoc, List.mem_append, List.mem_singleton] at hmem
  rcases hmem with h | h | h
  · exact absurd h hnew
  · exact absurd h (by simp [setupInitAction])
  · by_cases ht : jsTruthy (paramId (findRoute (cleanUrlOf base url) base).params) = true
    · rw [if_pos ht] at h
      exact setRelated_mem_detailActions h
    · rw [if_neg ht] at h
      exact absurd h setRelated_not_mem_productsActions

/-- C7 (witness): on the concrete fixtures, `render` of `/product/p1`
dispatches the related list `[prodB]` and every element's id differs
from the route id `p1`. -/
theorem render_related_products_exclude_current_witness :
    ProductAction.setRelatedProducts [prodB] ∈
      (render api0 pages0 "" "/product/p1" [] initialServerState).2.dispatched ∧
    prodB.productId ≠
      (paramId (findRoute (cleanUrlOf "" "/product/p1") "").params).getD "" :=
  ⟨by decide,
    render_related_products_exclude_current api0 pages0 "" "/product/p1" []
      initialServerState [prodB] (by decide) (by decide) prodB (by decide)⟩

theorem strToList_append (a b : String) : (a ++ b).toList = a.toList ++ b.toList :=
  String.data_append a b

theorem toList_ne_nil {s : String} (h : s ≠ "") : s.toList ≠ [] := by
  intro hd
  apply h
  cases s with
  | mk data =>
    simp only [String.toList] at hd
    subst hd
    rfl

theorem mem_of_getLast?_eq {l : List Char} {a : Char} (h : l.getLast? = some a) :
    a ∈ l := by
  obtain ⟨hne, heq⟩ := List.mem_getLast?_eq_getLast (Option.mem_def.mpr h)
  rw [heq]
  exact List.getLast_mem hne

theorem replaceFirstL_nil : ∀ l : List Char, replaceFirstL [] [] l = l
  | [] => rfl
  | c :: cs => by simp [replaceFirstL, leadsWith]

theorem takeWhile_stop (xs ys : List Char) :
    (xs ++ '?' :: ys).takeWhile (fun c => c != '?') =
      xs.takeWhile (fun c => c != '?') := by
  induction xs with
  | nil => simp [List.takeWhile]
  | cons c cs ih =>
    by_cases hc : (c != '?') = true
    · simp [List.cons_append, List.takeWhile_cons, hc, ih]
    · simp [List.cons_append, List.takeWhile_cons, hc]

theorem stripQueryL_of_no_query {l : List Char} (h : '?' ∉ l) : stripQueryL l = l := by
  apply List.takeWhile_eq_self_iff.mpr
  intro c hc
  simp only [bne_iff_ne, ne_eq]
  intro hcq
  exact h (hcq ▸ hc)

theorem matchProductL_some {l rest : List Char} (h : matchProductL l = some rest) :
    l = '/' :: 'p' :: 'r' :: 'o' :: 'd' :: 'u' :: 'c' :: 't' :: '/' :: rest ∧
      rest ≠ [] ∧ '/' ∉ rest := by
  unfold matchProductL at h
  split at h
  · split at h
    · simp at h
    · split at h
      · simp at h
      · rename_i rest' hnil hmem
        obtain rfl : rest' = rest := by simpa using h
        exact ⟨rfl, hnil, hmem⟩
  · simp at h

theorem findRoute_product_ok (id : String) (hne : id ≠ "")
    (hs : '/' ∉ id.toList) (hq : '?' ∉ id.toList) :
    findRoute ("/product/" ++ id) "" =
      ⟨PageKind.productDetail, [("id", id)]⟩ := by
  have hnil : id.toList ≠ [] := toList_ne_nil hne
  have hl : ("/product/" ++ id).toList = "/product/".toList ++ id.toList :=
    strToList_append "/product/" id
  have hq2 : '?' ∉ ("/product/" ++ id).toList := by
    rw [hl]
    intro hmem
    rcases List.mem_append.mp hmem with hmem | hmem
    · revert hmem; decide
    · exact hq hmem
  unfold findRoute
  rw [stripQueryL_of_no_query hq2, hl]
  have hlast : ("/product/".toList ++ id.toList).getLast? ≠ some '/' := by
    rw [List.getLast?_append_of_ne_nil "/product/".toList hnil]
    intro heq
    exact hs (mem_of_getLast?_eq heq)
  have hstrip : strippedPath ("/product/".toList ++ id.toList) "".toList =
      "/product/".toList ++ id.toList := by
    unfold strippedPath
    rw [show ("" : String).toList = [] from rfl, replaceFirstL_nil]
    unfold stripSlashL
    rw [if_neg hlast]
  unfold cleanOfPathname
  rw [hstrip]
  rw [if_neg (by simp [show "/product/".toList = ['/','p','r','o','d','u','c','t','/'] from rfl])]
  have hshape : "/product/".toList ++ id.toList =
      '/' :: 'p' :: 'r' :: 'o' :: 'd' :: 'u' :: 'c' :: 't' :: '/' :: id.toList := rfl
  rw [hshape]
  unfold routeOfClean
  rw [if_neg (by simp)]
  have hmk : String.mk id.toList = id := by cases id; rfl
  simp only [String.toList] at hnil hs hmk
  simp [matchProductL, hnil, hs, hmk]

theorem findRoute_notfound (p : String) (hne : p ≠ "") (hq : '?' ∉ p.toList)
    (hsl : p.toList.getLast? ≠ some '/') (hroot : p ≠ "/")
    (hprod : ∀ id : String, id ≠ "" → '/' ∉ id.toList → p ≠ "/product/" ++ id) :
    findRoute p "" = ⟨PageKind.notFound, []⟩ := by
  unfold findRoute
  rw [stripQueryL_of_no_query hq]
  have hstrip : strippedPath p.toList "".toList = p.toList := by
    unfold strippedPath
    rw [show ("" : String).toList = [] from rfl, replaceFirstL_nil]
    unfold stripSlashL
    rw [if_neg hsl]
  unfold cleanOfPathname
  rw [hstrip]
  rw [if_neg (toList_ne_nil hne)]
  unfold routeOfClean
  have hr : p.toList ≠ ['/'] := by
    intro heq
    apply hroot
    cases p with
    | mk data =>
      simp only [String.toList] at heq
      subst heq
      rfl
  rw [if_neg hr]
  cases hm : matchProductL p.toList with
  | none => rfl
  | some rest =>
    exfalso
    obtain ⟨hshape, hrne, hrs⟩ := matchProductL_some hm
    apply hprod (String.mk rest) (by simpa [String.ext_iff] using hrne)
      (by simpa [String.toList] using hrs)
    have : ("/product/" ++ String.mk rest).toList =
        '/' :: 'p' :: 'r' :: 'o' :: 'd' :: 'u' :: 'c' :: 't' :: '/' :: rest := rfl
    apply String.ext
    rw [show p.data = p.toList from rfl, hshape]
    exact this.symm

/-- C4 (counterexample): the claim fails in two places.  For the id
`a?b` (nonempty, containing no `/`), `findRoute "/product/a?b"` captures
`"a"`, not `"a?b"`, because the query split cuts the path at the first
`?`.  And the path `"//"` — which is neither `/` nor of the form
`/product/<id>` — maps to HomePage, not NotFoundPage, because one
trailing slash is stripped before matching. -/
theorem findRoute_claim_counterexample :
    (findRoute ("/product/" ++ "a?b") "").params ≠ [("id", "a?b")] ∧
    findRoute ("/product/" ++ "a?b") "" =
      ⟨PageKind.productDetail, [("id", "a")]⟩ ∧
    findRoute "//" "" ≠ ⟨PageKind.notFound, []⟩ ∧
    findRoute "//" "" = ⟨PageKind.home, []⟩ := by
  refine ⟨by decide, by decide, by decide, by decide⟩

/-- C4 (amended): `findRoute` maps `/` to HomePage with empty params;
maps `/product/<id>` to ProductDetailPage with `params.id = <id>` for
every nonempty `<id>` containing no `/` *and no `?`*; and maps to
NotFoundPage with empty params every other path that is already
normalized (contains no `?`, does not end in `/`, is nonempty, is not
`/` and is not `/product/<id>` for any nonempty slash-free `<id>`). -/
theorem findRoute_route_table :
    (findRoute "/" "" = ⟨PageKind.home, []⟩) ∧
    (∀ id : String, id ≠ "" → '/' ∉ id.toList → '?' ∉ id.toList →
      findRoute ("/product/" ++ id) "" = ⟨PageKind.productDetail, [("id", id)]⟩) ∧
    (∀ p : String, p ≠ "" → '?' ∉ p.toList → p.toList.getLast? ≠ some '/' →
      p ≠ "/" → (∀ id : String, id ≠ "" → '/' ∉ id.toList → p ≠ "/product/" ++ id) →
      findRoute p "" = ⟨PageKind.notFound, []⟩) := by
  refine ⟨by decide, findRoute_product_ok, findRoute_notfound⟩

/-- C4 (witness for `findRoute_route_table`): the hypotheses hold and
the theorem applies at the ids `abc` and the path `/xyz`. -/
theorem findRoute_route_table_witness :
    findRoute ("/product/" ++ "abc") "" =
      ⟨PageKind.productDetail, [("id", "abc")]⟩ ∧
    findRoute "/xyz" "" = ⟨PageKind.notFound, []⟩ :=
  ⟨findRoute_route_table.2.1 "abc" (by decide) (by decide) (by decide),
    findRoute_route_table.2.2 "/xyz" (by decide) (by decide) (by decide) (by decide)
      (fun id _ _ heq => by
        have := congrArg String.length heq
        rw [String.length_append] at this
        have h9 : ("/product/" : String).length = 9 := by decide
        have h4 : ("/xyz" : String).length = 4 := by decide
        omega)⟩

theorem findRoute_query_split (u q b : String) :
    findRoute (u ++ "?" ++ q) b = findRoute u b := by
  have h2 : (u ++ "?" ++ q).toList = u.toList ++ '?' :: q.toList := by
    rw [strToList_append, strToList_append]
    simp [List.append_assoc]
  have h3 : stripQueryL (u ++ "?" ++ q).toList = stripQueryL u.toList := by
    rw [h2]
    exact takeWhile_stop u.toList q.toList
  unfold findRoute
  rw [h3]

theorem findRoute_trailing_slash (u : String) (hsl : u.toList.getLast? ≠ some '/') :
    findRoute (u ++ "/") "" = findRoute u "" := by
  have h1 : (u ++ "/").toList = u.toList ++ ['/'] := by
    rw [strToList_append]
    rfl
  by_cases hq : '?' ∈ u.toList
  · obtain ⟨as, bs, hsplit⟩ := List.append_of_mem hq
    have h2 : stripQueryL (u ++ "/").toList = stripQueryL u.toList := by
      rw [h1, hsplit]
      unfold stripQueryL
      rw [List.append_assoc]
      rw [show ('?' :: bs) ++ ['/'] = '?' :: (bs ++ ['/']) from rfl]
      rw [takeWhile_stop as (bs ++ ['/']), takeWhile_stop as bs]
    unfold findRoute
    rw [h2]
  · have hq2 : '?' ∉ (u ++ "/").toList := by
      rw [h1]
      intro hm
      rcases List.mem_append.mp hm with hm | hm
      · exact hq hm
      · simp at hm
    unfold findRoute
    rw [stripQueryL_of_no_query hq2, stripQueryL_of_no_query hq, h1]
    have hs1 : strippedPath (u.toList ++ ['/']) ("" : String).toList = u.toList := by
      unfold strippedPath
      rw [show ("" : String).toList = [] from rfl, replaceFirstL_nil]
      unfold stripSlashL
      rw [if_pos (List.getLast?_concat u.toList), List.dropLast_concat]
    have hs2 : strippedPath u.toList ("" : String).toList = u.toList := by
      unfold strippedPath
      rw [show ("" : String).toList = [] from rfl, replaceFirstL_nil]
      unfold stripSlashL
      rw [if_neg hsl]
    unfold cleanOfPathname
    rw [hs1, hs2]

/-- C9 (counterexample): the trailing-slash part of the claim fails for
a nonempty `baseUrl`: with `b = "/base"` + `"/"` the base-url removal
fires on `"/base/"` but not on `"/base"`, so `findRoute("/base" + "/",
"/base/")` is HomePage while `findRoute("/base", "/base/")` is
NotFoundPage — and `"/base"` does not end in `/`. -/
theorem findRoute_trailing_slash_counterexample :
    ("/base" : String).toList.getLast? ≠ some '/' ∧
    findRoute ("/base" ++ "/") "/base/" ≠ findRoute "/base" "/base/" ∧
    findRoute ("/base" ++ "/") "/base/" = ⟨PageKind.home, []⟩ ∧
    findRoute "/base" "/base/" = ⟨PageKind.notFound, []⟩ := by
  refine ⟨by decide, by decide, by decide, by decide⟩

/-- C9 (amended): `findRoute` normalizes its url argument — appending
`"?" + q` never changes the result (for every baseUrl); appending a
trailing `/` to a url not already ending in `/` never changes the
result *when the baseUrl is empty* (with a nonempty baseUrl the base-url
removal can fire differently, see the counterexample); and whenever the
stripped path comes out empty the url is treated as `/`, i.e. HomePage. -/
theorem findRoute_normalization :
    (∀ u q b : String, findRoute (u ++ "?" ++ q) b = findRoute u b) ∧
    (∀ u : String, u.toList.getLast? ≠ some '/' →
      findRoute (u ++ "/") "" = findRoute u "") ∧
    (∀ url b : String, strippedPath (stripQueryL url.toList) b.toList = [] →
      findRoute url b = ⟨PageKind.home, []⟩) := by
  refine ⟨findRoute_query_split, findRoute_trailing_slash, ?_⟩
  intro url b h
  unfold findRoute cleanOfPathname
  rw [if_pos h]
  rfl

/-- C9 (witness for `findRoute_normalization`): each part applied at a
concrete input with its hypotheses discharged there. -/
theorem findRoute_normalization_witness :
    findRoute ("/a" ++ "?" ++ "x") "" = findRoute "/a" "" ∧
    findRoute ("/a" ++ "/") "" = findRoute "/a" "" ∧
    findRoute "" "" = ⟨PageKind.home, []⟩ :=
  ⟨findRoute_normalization.1 "/a" "x" "",
    findRoute_normalization.2.1 "/a" (by decide),
    findRoute_normalization.2.2 "" "" (by decide)⟩

/-- C6 (confirmed): whenever `render` resolves, the middleware sends a
response with Content-Type `text/html` whose body is the full server
template: the render result appears inside `<div id="root">...</div>`,
and the css and js paths in the template are the base URL concatenated
with the configured asset file names. -/
theorem ssrMiddleware_response (api : Api) (pages : Pages) (appBase base : String)
    (prod : Bool) (assets : Deploy.Assets) (req : Deploy.Request)
    (s0 : ServerState) (html : String)
    (h : (render api pages appBase (Deploy.urlOf base req) req.query s0).1 =
      Except.ok html) :
    ∃ r : Deploy.Response,
      (Deploy.ssrMiddleware api pages appBase base prod assets req s0).1 = some r ∧
      r.contentType = "text/html" ∧
      r.body = Deploy.createHtmlTemplate html base prod assets ∧
      (∃ pre post, r.body = pre ++ ("<div id=\"root\">" ++ html ++ "</div>") ++ post) ∧
      (∃ pre post, r.body = pre ++ ("href=\"" ++ (base ++ assets.css) ++ "\"") ++ post) ∧
      (∃ pre post, r.body = pre ++ ("src=\"" ++ (base ++ assets.js) ++ "\"") ++ post) := by
  refine ⟨{ contentType := "text/html"
            body := Deploy.createHtmlTemplate html base prod assets }, ?_, rfl, rfl, ?_, ?_, ?_⟩
  · unfold Deploy.ssrMiddleware
    rcases hr : render api pages appBase (Deploy.urlOf base req) req.query s0 with ⟨res, s1⟩
    rw [hr] at h
    simp only at h
    subst h
    rfl
  · exact ⟨Deploy.tplA ++ "href=\"" ++ (base ++ assets.css) ++ "\"" ++ Deploy.tplB,
      Deploy.tplC ++ "src=\"" ++ (base ++ assets.js) ++ "\"" ++ Deploy.tplD,
      by simp [Deploy.createHtmlTemplate, String.append_assoc]⟩
  · exact ⟨Deploy.tplA,
      Deploy.tplB ++ "<div id=\"root\">" ++ html ++ "</div>" ++ Deploy.tplC ++
        "src=\"" ++ (base ++ assets.js) ++ "\"" ++ Deploy.tplD,
      by simp [Deploy.createHtmlTemplate, String.append_assoc]⟩
  · exact ⟨Deploy.tplA ++ "href=\"" ++ (base ++ assets.css) ++ "\"" ++ Deploy.tplB ++
        "<div id=\"root\">" ++ html ++ "</div>" ++ Deploy.tplC,
      Deploy.tplD,
      by simp [Deploy.createHtmlTemplate, String.append_assoc]⟩

/-- C6 (witness for `ssrMiddleware_response`): the render hypothesis
holds at the fixtures and the middleware sends text/html. -/
theorem ssrMiddleware_response_witness :
    (render api0 pages0 "" (Deploy.urlOf "/" Deploy.req0) Deploy.req0.query
      initialServerState).1 = Except.ok "HOMEHTML" ∧
    ∃ r : Deploy.Response,
      (Deploy.ssrMiddleware api0 pages0 "" "/" false Deploy.assets0 Deploy.req0
        initialServerState).1 = some r ∧
      r.contentType = "text/html" := by
  refine ⟨by decide, ?_⟩
  obtain ⟨r, h1, h2, -⟩ := ssrMiddleware_response api0 pages0 "" "/" false
    Deploy.assets0 Deploy.req0 initialServerState "HOMEHTML" (by decide)
  exact ⟨r, h1, h2⟩

/-- C8 (confirmed): the server's templating function is deterministic —
it reads nothing but its four arguments, so equal arguments produce
identical template strings. -/
theorem createHtmlTemplate_deterministic (h1 h2 b1 b2 : String) (p1 p2 : Bool)
    (a1 a2 : Deploy.Assets) (hh : h1 = h2) (hb : b1 = b2) (hp : p1 = p2)
    (ha : a1 = a2) :
    Deploy.createHtmlTemplate h1 b1 p1 a1 = Deploy.createHtmlTemplate h2 b2 p2 a2 := by
  rw [hh, hb, hp, ha]

/-- C8 (witness for `createHtmlTemplate_deterministic`). -/
theorem createHtmlTemplate_deterministic_witness :
    Deploy.createHtmlTemplate "X" "/" true Deploy.assets0 =
      Deploy.createHtmlTemplate "X" "/" true Deploy.assets0 :=
  createHtmlTemplate_deterministic "X" "X" "/" "/" true true
    Deploy.assets0 Deploy.assets0 rfl rfl rfl rfl

/-- C2 (code_bug evaluation): for product id `p1` the generator does
call `render` once for `/product/p1` and writes
`product/p1/index.html` — but because it destructures
`{ html, initialData }` from the *string* `render` resolves with
(`render`'s own doc says it resolves with the HTML string), `html` is
`undefined` and every written file embeds the text `undefined` where
the page HTML belongs; neither the detail HTML nor the home HTML ever
reaches a file. -/
theorem generateStaticSite_embeds_undefined :
    (SSG.generateStaticSite api0 pages0 SSG.tpl0 ["p1"]).1.renderCalls =
      ["/", "/product/p1", "/not-found-page"] ∧
    ((SSG.generateStaticSite api0 pages0 SSG.tpl0 ["p1"]).1.files.map Prod.fst) =
      ["index.html", "product/p1/index.html", "404.html"] ∧
    ((SSG.generateStaticSite api0 pages0 SSG.tpl0 ["p1"]).1.files.all
      (fun f => strContains f.2 "undefined")) = true ∧
    ((SSG.generateStaticSite api0 pages0 SSG.tpl0 ["p1"]).1.files.all
      (fun f => !(strContains f.2 "DETAILHTML"))) = true ∧
    ((SSG.generateStaticSite api0 pages0 SSG.tpl0 ["p1"]).1.files.all
      (fun f => !(strContains f.2 "HOMEHTML"))) = true := by
  refine ⟨by decide, by decide, by decide, by decide, by decide⟩

/-- C10 (confirmed): the SSG templating substitutes the app-html
placeholder, removes the app-head placeholder, and injects a
`window.__INITIAL_DATA__` script before `</body>` exactly when
`initialData` is non-null: the null case is literally the two
placeholder edits (`applyPlaceholders`, the spec-side definition) with
nothing appended, the non-null case is that plus the script insertion,
and on the modelled template the null output contains no
`__INITIAL_DATA__` text while the non-null output does. -/
theorem ssg_createHtmlTemplate_initial_data :
    (∀ t h : String, SSG.createHtmlTemplate t h none = SSG.applyPlaceholders t h) ∧
    (∀ t h d : String, SSG.createHtmlTemplate t h (some d) =
      replaceFirst (SSG.applyPlaceholders t h) "</body>"
        (SSG.initialDataScript d ++ "\n  </body>")) ∧
    strContains (SSG.createHtmlTemplate SSG.tpl0 "<p>x</p>" none)
      "__INITIAL_DATA__" = false ∧
    strContains (SSG.createHtmlTemplate SSG.tpl0 "<p>x</p>" (some "[1]"))
      "__INITIAL_DATA__" = true ∧
    strContains (SSG.applyPlaceholders SSG.tpl0 "<p>x</p>") "<!--app-html-->" = false ∧
    strContains (SSG.applyPlaceholders SSG.tpl0 "<p>x</p>") "<p>x</p>" = true ∧
    strContains (SSG.applyPlaceholders SSG.tpl0 "<p>x</p>") "<!--app-head-->" = false := by
  refine ⟨fun t h => rfl, fun t h d => rfl, by decide, by decide, by decide,
    by decide, by decide⟩
